import Mathlib

/-!
Verification of the furniture-business MILP builder and solver adapter
(`task4_furniture_business_optimization.py`).

The model-building layer (`optimize_business_strategy`, lines 45-106) is
embedded shallowly: decision variables become an `Assignment` record, each
pulp constraint becomes a decidable proposition over an assignment, and the
pulp objective becomes a rational-valued function.  The result-mapping layer
(lines 108-121) is embedded as a function on the raw solver output, with
Python's fallible `int(...)` conversion modelled in the `Except` monad.
-/

set_option autoImplicit false

namespace Furniture

/-- One entry of `self.products` (source lines 15-34): the per-unit economics
of an existing product line. -/
structure Product where
  profit_per_unit : ℚ
  wood_hours_per_unit : ℚ
  material_cost : ℚ
  design_complexity : ℚ
  deriving DecidableEq

/-- `self.new_product_design` (source lines 37-43).  Note: the record has no
`max_units_if_approved` field; the production cap in the gating constraint is
the literal constant 50 at source line 103. -/
structure NewProductDesign where
  design_hours_required : ℚ
  prototype_cost : ℚ
  estimated_profit_per_unit : ℚ
  wood_hours_per_unit : ℚ
  material_cost_per_unit : ℚ
  deriving DecidableEq

/-- `self.manufacturing_capacity` (source lines 8-12): the three capacity
entries the builder reads, keyed by the fixed names used in the source. -/
structure Capacities where
  wood_hours : ℚ
  design_hours : ℚ
  budget : ℚ
  deriving DecidableEq

/-- The full parameter block set up by `__init__` (source lines 6-43).
The product catalog is kept in insertion order of the source dict. -/
structure BusinessParameters where
  manufacturing_capacity : Capacities
  products : List Product
  new_product_design : NewProductDesign
  deriving DecidableEq

/-- The configured parameters of `__init__`: capacities 1200/400/150000,
the three products dining_table, bookshelf, office_chair in dict order,
and the new-product design record. -/
def defaultParameters : BusinessParameters :=
  { manufacturing_capacity :=
      { wood_hours := 1200, design_hours := 400, budget := 150000 }
    products :=
      [ { profit_per_unit := 350, wood_hours_per_unit := 8
          material_cost := 250, design_complexity := 15 },
        { profit_per_unit := 250, wood_hours_per_unit := 6
          material_cost := 180, design_complexity := 10 },
        { profit_per_unit := 200, wood_hours_per_unit := 4
          material_cost := 150, design_complexity := 8 } ]
    new_product_design :=
      { design_hours_required := 100, prototype_cost := 5000
        estimated_profit_per_unit := 275, wood_hours_per_unit := 5
        material_cost_per_unit := 200 } }

/-- A valuation of the decision variables (source lines 51-58):
one non-negative integer per product of the catalog (`Produce_<name>`,
`lowBound=0, cat='Integer'`), the binary `Design_New_Product`, and the
non-negative integer `New_Product_Units`. -/
structure Assignment where
  production : List ℕ
  design_new_product : Bool
  new_product_units : ℕ
  deriving DecidableEq

/-- Numeric value of the binary variable. -/
def bval (b : Bool) : ℚ := if b then 1 else 0

/-- `sum(coeff(p) * var(p) for p in products)`: the dot product of a per-unit
coefficient against the production quantities, in catalog order. -/
def dotProd (f : Product → ℚ) : List Product → List ℕ → ℚ
  | [], _ => 0
  | _, [] => 0
  | p :: ps, x :: xs => f p * (x : ℚ) + dotProd f ps xs

/-- The objective expression built at source lines 62-73:
profit of the existing products, plus
`design_new_product * (-prototype_cost) + estimated_profit_per_unit * new_product_units`. -/
def objective (P : BusinessParameters) (v : Assignment) : ℚ :=
  dotProd (fun p => p.profit_per_unit) P.products v.production
    + (bval v.design_new_product * (-P.new_product_design.prototype_cost)
        + P.new_product_design.estimated_profit_per_unit * (v.new_product_units : ℚ))

/-- Constraint `Woodworking_Hours_Constraint` (source lines 77-82). -/
def woodworking_hours_constraint (P : BusinessParameters) (v : Assignment) : Prop :=
  dotProd (fun p => p.wood_hours_per_unit) P.products v.production
      + P.new_product_design.wood_hours_per_unit * (v.new_product_units : ℚ)
    ≤ P.manufacturing_capacity.wood_hours

/-- Constraint `Design_Hours_Constraint` (source lines 85-90). -/
def design_hours_constraint (P : BusinessParameters) (v : Assignment) : Prop :=
  bval v.design_new_product * P.new_product_design.design_hours_required
      + dotProd (fun p => p.design_complexity) P.products v.production
    ≤ P.manufacturing_capacity.design_hours

/-- Constraint `Budget_Constraint` (source lines 93-99). -/
def budget_constraint (P : BusinessParameters) (v : Assignment) : Prop :=
  dotProd (fun p => p.material_cost) P.products v.production
      + bval v.design_new_product * P.new_product_design.prototype_cost
      + P.new_product_design.material_cost_per_unit * (v.new_product_units : ℚ)
    ≤ P.manufacturing_capacity.budget

/-- The unnamed gating constraint added at source line 103:
`new_product_units <= 50 * design_new_product`.  It is built from the
parameter block `P`, but the body uses only the literal constant 50. -/
def new_product_gate (P : BusinessParameters) (v : Assignment) : Prop :=
  (v.new_product_units : ℚ) ≤ 50 * bval v.design_new_product

/-- A feasible solution of the model built by `optimize_business_strategy`:
one production variable per catalog entry, and the four emitted constraints. -/
def feasible (P : BusinessParameters) (v : Assignment) : Prop :=
  v.production.length = P.products.length
    ∧ woodworking_hours_constraint P v
    ∧ design_hours_constraint P v
    ∧ budget_constraint P v
    ∧ new_product_gate P v

instance (P : BusinessParameters) (v : Assignment) : Decidable (feasible P v) := by
  unfold feasible woodworking_hours_constraint design_hours_constraint
    budget_constraint new_product_gate
  infer_instance

/-- An assignment maximizing the objective over the feasible region. -/
def IsOptimal (P : BusinessParameters) (v : Assignment) : Prop :=
  feasible P v ∧ ∀ w : Assignment, feasible P w → objective P w ≤ objective P v

/-- The all-zero assignment over a catalog of `n` products: produce nothing,
do not approve the new product. -/
def zeroAssignment (n : ℕ) : Assignment :=
  { production := List.replicate n 0, design_new_product := false
    new_product_units := 0 }

/-- The Python exceptions the result-mapping code (source lines 108-119) can
raise: `TypeError` from `int(None)`, `KeyError` from indexing the
`pulp.LpStatus` dict with an unknown code. -/
inductive PyError where
  | typeError
  | keyError
  deriving DecidableEq

/-- Python truthiness of a solver variable value (`if design_new_product.varValue`
and `bool(design_new_product.varValue)` at source lines 113-114): `None` and
`0.0` are falsy, every other number is truthy. -/
def pyTruthy : Option ℚ → Bool
  | none => false
  | some q => decide (q ≠ 0)

/-- Python `int(q)` on a finite float: truncation toward zero. -/
def pyInt (q : ℚ) : ℤ := if 0 ≤ q then ⌊q⌋ else ⌈q⌉

/-- Python `int(var.varValue)`: raises `TypeError` when the variable has no
assigned value (`varValue is None`), otherwise truncates toward zero. -/
def pyIntOfValue : Option ℚ → Except PyError ℤ
  | none => Except.error PyError.typeError
  | some q => Except.ok (pyInt q)

/-- The `pulp.LpStatus` dict indexed with a pulp status code at source
line 110: a fixed five-entry map from the pulp status codes to strings;
indexing it with any other code raises `KeyError`. -/
def LpStatus (code : ℤ) : Except PyError String :=
  if code = 1 then Except.ok ("Optimal")
  else if code = 0 then Except.ok ("Not Solved")
  else if code = -1 then Except.ok ("Infeasible")
  else if code = -2 then Except.ok ("Unbounded")
  else if code = -3 then Except.ok ("Undefined")
  else Except.error PyError.keyError

/-- The raw data the mapping code reads back from the solved pulp problem:
the terminal status code `prob.status`, `pulp.value(prob.objective)`, and the
`varValue` of each decision variable (absent values are `none`).  Production
values are listed in catalog order. -/
structure RawSolution where
  status : ℤ
  objective_value : Option ℚ
  production_values : List (Option ℚ)
  design_value : Option ℚ
  new_units_value : Option ℚ

/-- The `results` dict built at source lines 109-119. -/
structure OptResults where
  status : String
  total_profit : Option ℚ
  production_plan : List ℤ
  new_product_design : Bool
  new_product_units : ℤ
  deriving DecidableEq

/-- Source line 114:
`int(new_product_units.varValue) if design_new_product.varValue else 0`. -/
def newUnitsField (design_value new_units_value : Option ℚ) : Except PyError ℤ :=
  if pyTruthy design_value then pyIntOfValue new_units_value else Except.ok 0

/-- The loop at source lines 118-119: apply `int(var.varValue)` to each
production variable in order; the first exception aborts the whole run. -/
def collectPlan : List (Option ℚ) → Except PyError (List ℤ)
  | [] => Except.ok []
  | val :: rest =>
    match pyIntOfValue val with
    | Except.error e => Except.error e
    | Except.ok n =>
      match collectPlan rest with
      | Except.error e => Except.error e
      | Except.ok ns => Except.ok (n :: ns)

/-- The result-mapping code at source lines 108-119, with Python exception
propagation made explicit: index `pulp.LpStatus` with the status code, compute
the new-product fields, then fill `production_plan` from the variable values. -/
def buildResults (raw : RawSolution) : Except PyError OptResults :=
  match LpStatus raw.status with
  | Except.error e => Except.error e
  | Except.ok st =>
    match newUnitsField raw.design_value raw.new_units_value with
    | Except.error e => Except.error e
    | Except.ok npu =>
      match collectPlan raw.production_values with
      | Except.error e => Except.error e
      | Except.ok plan =>
        Except.ok { status := st, total_profit := raw.objective_value
                    production_plan := plan
                    new_product_design := pyTruthy raw.design_value
                    new_product_units := npu }

/-- Modelled from the spec: the terminal status of the external MILP solver as
seen by the adapter.  The backend translation from solver-specific statuses to
pulp status codes lives inside the external pulp library, not in the
repository source; per the spec, four statuses are recognized and anything
else is translated to the Undefined code. -/
inductive SolverTerminalStatus where
  | optimal
  | notSolved
  | infeasible
  | unbounded
  | other (detail : String)

/-- Modelled from the spec: the backend's translation of a solver-specific
terminal status into the pulp status code stored in `prob.status`; an
unrecognized status is translated to the Undefined code `-3`, never an
error. -/
def backendStatusCode : SolverTerminalStatus → ℤ
  | SolverTerminalStatus.optimal => 1
  | SolverTerminalStatus.notSolved => 0
  | SolverTerminalStatus.infeasible => -1
  | SolverTerminalStatus.unbounded => -2
  | SolverTerminalStatus.other _ => -3

/-- Modelled from the spec: the contract of the external MILP solver invoked
by `prob.solve()` (a black box per the spec).  A conforming run on the model
built from `P` yields a pulp status code and an assignment such that: on a
model with a feasible point and an objective bounded above over the feasible
region, the reported code is the Optimal code `1`; and whenever the Optimal
code is reported, the returned assignment is an optimal feasible solution. -/
def SolverContract (P : BusinessParameters) (status : ℤ) (values : Assignment) : Prop :=
  ((∃ v, feasible P v) →
      (∃ B : ℚ, ∀ v, feasible P v → objective P v ≤ B) → status = 1)
    ∧ (status = 1 → IsOptimal P values)

/-- The three capacity entries of `self.manufacturing_capacity`, by key. -/
inductive CapacityName where
  | wood_hours
  | design_hours
  | budget

/-- Read one capacity entry. -/
def getCapacity (c : Capacities) : CapacityName → ℚ
  | CapacityName.wood_hours => c.wood_hours
  | CapacityName.design_hours => c.design_hours
  | CapacityName.budget => c.budget

/-- Replace one capacity entry. -/
def setCapacity (c : Capacities) : CapacityName → ℚ → Capacities
  | CapacityName.wood_hours, x => { c with wood_hours := x }
  | CapacityName.design_hours, x => { c with design_hours := x }
  | CapacityName.budget, x => { c with budget := x }

/-- The parameter block with one capacity entry increased by `d`, all other
parameters unchanged. -/
def increaseCapacity (P : BusinessParameters) (n : CapacityName) (d : ℚ) :
    BusinessParameters :=
  let caps := P.manufacturing_capacity
  { P with manufacturing_capacity := setCapacity caps n (getCapacity caps n + d) }

/-- The configured parameters with the budget capacity set to 0. -/
def zeroBudgetParameters : BusinessParameters :=
  { defaultParameters with manufacturing_capacity :=
      { defaultParameters.manufacturing_capacity with budget := 0 } }

/-- A degenerate parameter block (empty catalog, all capacities 0) used to
instantiate optimality statements at a concrete input. -/
def tinyParameters : BusinessParameters :=
  { manufacturing_capacity := { wood_hours := 0, design_hours := 0, budget := 0 }
    products := []
    new_product_design :=
      { design_hours_required := 1, prototype_cost := 1
        estimated_profit_per_unit := 1, wood_hours_per_unit := 1
        material_cost_per_unit := 1 } }

/-- A new-product record with fields different from the configured one, used
to instantiate parameter-independence statements at a concrete input. -/
def alternativeDesign : NewProductDesign :=
  { design_hours_required := 999999, prototype_cost := 999999
    estimated_profit_per_unit := 999999, wood_hours_per_unit := 999999
    material_cost_per_unit := 999999 }

theorem feasible_zero_default : feasible defaultParameters (zeroAssignment 3) := by
  refine ⟨rfl, ?_, ?_, ?_, ?_⟩ <;>
    norm_num [woodworking_hours_constraint, design_hours_constraint,
      budget_constraint, new_product_gate, defaultParameters, zeroAssignment,
      dotProd, bval, List.replicate]

theorem feasible_zero_alternative :
    feasible { defaultParameters with new_product_design := alternativeDesign }
      (zeroAssignment 3) := by
  refine ⟨rfl, ?_, ?_, ?_, ?_⟩ <;>
    norm_num [woodworking_hours_constraint, design_hours_constraint,
      budget_constraint, new_product_gate, defaultParameters, alternativeDesign,
      zeroAssignment, dotProd, bval, List.replicate]

/-- C1: in every feasible solution of the model built by
`optimize_business_strategy`, the gating invariant
`new_product_units ≤ 50 × approve_new_product` holds; in particular
`new_product_units` is forced to zero whenever the approval binary is 0. -/
theorem claim_C1_gating_invariant (P : BusinessParameters) (v : Assignment)
    (h : feasible P v) :
    v.new_product_units ≤ (if v.design_new_product then 50 else 0)
      ∧ (v.design_new_product = false → v.new_product_units = 0) := by
  have hg := h.2.2.2.2
  unfold new_product_gate at hg
  cases hb : v.design_new_product with
  | false =>
    rw [hb] at hg
    norm_num [bval] at hg
    exact ⟨by simp [hg], fun _ => hg⟩
  | true =>
    rw [hb] at hg
    norm_num [bval] at hg
    refine ⟨by simpa using (by exact_mod_cast hg : v.new_product_units ≤ 50), ?_⟩
    intro hf
    simp at hf

theorem claim_C1_witness :
    feasible defaultParameters (zeroAssignment 3)
      ∧ ((zeroAssignment 3).new_product_units
            ≤ (if (zeroAssignment 3).design_new_product then 50 else 0)
          ∧ ((zeroAssignment 3).design_new_product = false
              → (zeroAssignment 3).new_product_units = 0)) :=
  ⟨feasible_zero_default,
    claim_C1_gating_invariant defaultParameters (zeroAssignment 3)
      feasible_zero_default⟩

/-- C2: for every parameter block and every valuation of the decision
variables, the objective built at source lines 62-73 equals the sum over
existing products of `profit_per_unit × production[p]`, plus
`estimated_profit_per_unit × new_product_units`, minus
`prototype_cost × approve_new_product` — the one-time design cost is
multiplied by the binary approval indicator, not by the quantity. -/
theorem claim_C2_objective_form (P : BusinessParameters) (v : Assignment) :
    objective P v
      = dotProd (fun p => p.profit_per_unit) P.products v.production
          + P.new_product_design.estimated_profit_per_unit * (v.new_product_units : ℚ)
          - P.new_product_design.prototype_cost * bval v.design_new_product := by
  unfold objective
  ring

/-- C3: for every parameter block and valuation, the budget constraint built
at source lines 93-99 bounds, by the budget capacity, the per-unit material
cost of the existing production plus `prototype_cost × approve_new_product`
plus `material_cost_per_unit × new_product_units` — the prototype cost is
additively reserved in the budget constraint. -/
theorem claim_C3_budget_form (P : BusinessParameters) (v : Assignment) :
    budget_constraint P v
      ↔ dotProd (fun p => p.material_cost) P.products v.production
          + P.new_product_design.prototype_cost * bval v.design_new_product
          + P.new_product_design.material_cost_per_unit * (v.new_product_units : ℚ)
        ≤ P.manufacturing_capacity.budget := by
  unfold budget_constraint
  rw [mul_comm (bval v.design_new_product) P.new_product_design.prototype_cost]

/-- C10: for every parameterization of the new-product record, the gating
constraint emitted at source line 103 bounds `new_product_units` by the
literal constant 50 times the approval binary, and no field of the
new-product record changes the constraint. -/
theorem claim_C10_literal_cap (P : BusinessParameters) (n : NewProductDesign)
    (v : Assignment)
    (h : feasible { P with new_product_design := n } v) :
    (v.new_product_units : ℚ) ≤ 50 * bval v.design_new_product
      ∧ new_product_gate { P with new_product_design := n } v
          = new_product_gate P v :=
  ⟨h.2.2.2.2, rfl⟩

theorem claim_C10_witness :
    feasible { defaultParameters with new_product_design := alternativeDesign }
        (zeroAssignment 3)
      ∧ (((zeroAssignment 3).new_product_units : ℚ)
            ≤ 50 * bval (zeroAssignment 3).design_new_product
          ∧ new_product_gate
                { defaultParameters with new_product_design := alternativeDesign }
                (zeroAssignment 3)
              = new_product_gate defaultParameters (zeroAssignment 3)) :=
  ⟨feasible_zero_alternative,
    claim_C10_literal_cap defaultParameters alternativeDesign (zeroAssignment 3)
      feasible_zero_alternative⟩

theorem pyInt_seven_quarters : pyInt ((7:ℚ)/4) = 1 := by
  unfold pyInt
  rw [if_pos (by norm_num)]
  rw [Int.floor_eq_iff]
  norm_num

/-- C4: the mapper truncates toward zero instead of rounding to the nearest
integer.  At the raw solver values 7/4 (for the first production variable and
for the new-product units, with the approval binary at 1) the built result
stores 1 in both integer fields, while nearest-integer rounding of 7/4 is 2. -/
theorem claim_C4_truncates :
    buildResults ⟨1, none, [some ((7:ℚ)/4)], some 1, some ((7:ℚ)/4)⟩
        = Except.ok ⟨"Optimal", none, [1], true, 1⟩
      ∧ round ((7:ℚ)/4) = 2 := by
  constructor
  · simp [buildResults, LpStatus, newUnitsField, pyTruthy, collectPlan,
      pyIntOfValue, pyInt_seven_quarters]
  · rw [round_eq, Int.floor_eq_iff]
    norm_num

/-- C5: on a solver output with a non-Optimal terminal status and absent
variable values, the mapping code raises `TypeError` (from `int(None)` at
source line 119) instead of returning a result with a zeroed
`production_plan`. -/
theorem claim_C5_type_error :
    buildResults ⟨0, none, [none, none, none], none, none⟩
      = Except.error PyError.typeError := by
  rfl

/-- C6: for every solver terminal status, the status stored by the adapter is
one of the five strings of the `pulp.LpStatus` table, and any solver-specific
status not recognized as one of the first four is reported as Undefined
rather than an error. -/
theorem claim_C6_status_mapping (s : SolverTerminalStatus) :
    (LpStatus (backendStatusCode s) = Except.ok ("Optimal")
      ∨ LpStatus (backendStatusCode s) = Except.ok ("Not Solved")
      ∨ LpStatus (backendStatusCode s) = Except.ok ("Infeasible")
      ∨ LpStatus (backendStatusCode s) = Except.ok ("Unbounded")
      ∨ LpStatus (backendStatusCode s) = Except.ok ("Undefined"))
    ∧ (∀ detail : String,
        LpStatus (backendStatusCode (SolverTerminalStatus.other detail))
          = Except.ok ("Undefined")) := by
  constructor
  · cases s with
    | optimal => exact Or.inl rfl
    | notSolved => exact Or.inr (Or.inl rfl)
    | infeasible => exact Or.inr (Or.inr (Or.inl rfl))
    | unbounded => exact Or.inr (Or.inr (Or.inr (Or.inl rfl)))
    | other detail => exact Or.inr (Or.inr (Or.inr (Or.inr rfl)))
  · intro detail
    rfl

/-- C7: every result the mapper returns has `new_product_units = 0` whenever
`new_product_design` is false, regardless of the raw value the solver
assigned to the new-product-units variable (source line 114). -/
theorem claim_C7_units_clamp (raw : RawSolution) (r : OptResults)
    (hok : buildResults raw = Except.ok r)
    (hfalse : r.new_product_design = false) :
    r.new_product_units = 0 := by
  unfold buildResults at hok
  cases hls : LpStatus raw.status with
  | error e => rw [hls] at hok; cases hok
  | ok st =>
    rw [hls] at hok
    cases hnu : newUnitsField raw.design_value raw.new_units_value with
    | error e => rw [hnu] at hok; cases hok
    | ok npu =>
      rw [hnu] at hok
      cases hcp : collectPlan raw.production_values with
      | error e => rw [hcp] at hok; cases hok
      | ok plan =>
        rw [hcp] at hok
        injection hok with hok
        subst hok
        have hf : pyTruthy raw.design_value = false := hfalse
        rw [newUnitsField, hf] at hnu
        simp at hnu
        exact hnu.symm

theorem claim_C7_witness :
    buildResults ⟨1, none, [], none, none⟩
        = Except.ok ⟨"Optimal", none, [], false, 0⟩
      ∧ OptResults.new_product_units ⟨"Optimal", none, [], false, 0⟩ = 0 :=
  ⟨rfl, claim_C7_units_clamp ⟨1, none, [], none, none⟩
    ⟨"Optimal", none, [], false, 0⟩ rfl rfl⟩

theorem feasible_increase (P : BusinessParameters) (n : CapacityName) (d : ℚ)
    (hd : 0 ≤ d) (v : Assignment) (h : feasible P v) :
    feasible (increaseCapacity P n d) v := by
  obtain ⟨hlen, hw, hdes, hb, hg⟩ := h
  unfold woodworking_hours_constraint at hw
  unfold design_hours_constraint at hdes
  unfold budget_constraint at hb
  cases n with
  | wood_hours =>
    refine ⟨hlen, ?_, hdes, hb, hg⟩
    show dotProd (fun p => p.wood_hours_per_unit) P.products v.production
        + P.new_product_design.wood_hours_per_unit * (v.new_product_units : ℚ)
      ≤ P.manufacturing_capacity.wood_hours + d
    linarith
  | design_hours =>
    refine ⟨hlen, hw, ?_, hb, hg⟩
    show bval v.design_new_product * P.new_product_design.design_hours_required
        + dotProd (fun p => p.design_complexity) P.products v.production
      ≤ P.manufacturing_capacity.design_hours + d
    linarith
  | budget =>
    refine ⟨hlen, hw, hdes, ?_, hg⟩
    show dotProd (fun p => p.material_cost) P.products v.production
        + bval v.design_new_product * P.new_product_design.prototype_cost
        + P.new_product_design.material_cost_per_unit * (v.new_product_units : ℚ)
      ≤ P.manufacturing_capacity.budget + d
    linarith

/-- C8: increasing any single capacity entry by a non-negative amount, all
other parameters fixed, never decreases the optimal value of the objective. -/
theorem claim_C8_capacity_monotone (P : BusinessParameters) (n : CapacityName)
    (d : ℚ) (hd : 0 ≤ d) (v w : Assignment)
    (hv : IsOptimal P v) (hw : IsOptimal (increaseCapacity P n d) w) :
    objective P v ≤ objective (increaseCapacity P n d) w := by
  have hv' : feasible (increaseCapacity P n d) v :=
    feasible_increase P n d hd v hv.1
  have h := hw.2 v hv'
  exact h

theorem tiny_feasible : feasible tinyParameters (zeroAssignment 0) := by
  refine ⟨rfl, ?_, ?_, ?_, ?_⟩ <;>
    norm_num [woodworking_hours_constraint, design_hours_constraint,
      budget_constraint, new_product_gate, tinyParameters, zeroAssignment,
      dotProd, bval, List.replicate]

theorem tiny_forced (w : Assignment) (h : feasible tinyParameters w) :
    objective tinyParameters w = 0 := by
  obtain ⟨hlen, hw, hdes, hb, hg⟩ := h
  have hnil : w.production = [] := List.length_eq_zero.mp hlen
  unfold woodworking_hours_constraint at hw
  unfold design_hours_constraint at hdes
  rw [hnil] at hw hdes
  norm_num [tinyParameters, dotProd] at hw hdes
  cases hd : w.design_new_product with
  | true =>
    rw [hd] at hdes
    norm_num [bval] at hdes
  | false =>
    unfold objective
    rw [hnil, hd]
    norm_num [tinyParameters, dotProd, bval, hw]

theorem tiny_optimal : IsOptimal tinyParameters (zeroAssignment 0) := by
  refine ⟨tiny_feasible, fun w hw => ?_⟩
  rw [tiny_forced w hw, tiny_forced (zeroAssignment 0) tiny_feasible]

theorem tiny_increase_eq :
    increaseCapacity tinyParameters CapacityName.wood_hours 0 = tinyParameters := by
  simp [increaseCapacity, setCapacity, getCapacity, tinyParameters]

theorem claim_C8_witness :
    (0:ℚ) ≤ 0
      ∧ IsOptimal tinyParameters (zeroAssignment 0)
      ∧ IsOptimal (increaseCapacity tinyParameters CapacityName.wood_hours 0)
          (zeroAssignment 0)
      ∧ objective tinyParameters (zeroAssignment 0)
          ≤ objective (increaseCapacity tinyParameters CapacityName.wood_hours 0)
              (zeroAssignment 0) := by
  have h2 : IsOptimal (increaseCapacity tinyParameters CapacityName.wood_hours 0)
      (zeroAssignment 0) := by
    rw [tiny_increase_eq]
    exact tiny_optimal
  exact ⟨le_refl 0, tiny_optimal, h2,
    claim_C8_capacity_monotone tinyParameters CapacityName.wood_hours 0
      (le_refl 0) (zeroAssignment 0) (zeroAssignment 0) tiny_optimal h2⟩

theorem zeroBudget_feasible : feasible zeroBudgetParameters (zeroAssignment 3) := by
  refine ⟨rfl, ?_, ?_, ?_, ?_⟩ <;>
    norm_num [woodworking_hours_constraint, design_hours_constraint,
      budget_constraint, new_product_gate, zeroBudgetParameters,
      defaultParameters, zeroAssignment, dotProd, bval, List.replicate]

theorem zeroBudget_forced (w : Assignment) (h : feasible zeroBudgetParameters w) :
    w.production = [0, 0, 0] ∧ w.design_new_product = false
      ∧ w.new_product_units = 0 ∧ objective zeroBudgetParameters w = 0 := by
  obtain ⟨hlen, -, -, hb, -⟩ := h
  have hlen3 : w.production.length = 3 := hlen
  obtain ⟨a, b, c, habc⟩ := List.length_eq_three.mp hlen3
  unfold budget_constraint at hb
  rw [habc] at hb
  norm_num [zeroBudgetParameters, defaultParameters, dotProd] at hb
  have hca := (Nat.cast_nonneg a : (0:ℚ) ≤ a)
  have hcb := (Nat.cast_nonneg b : (0:ℚ) ≤ b)
  have hcc := (Nat.cast_nonneg c : (0:ℚ) ≤ c)
  have hcu := (Nat.cast_nonneg w.new_product_units : (0:ℚ) ≤ w.new_product_units)
  cases hd : w.design_new_product with
  | true =>
    rw [hd] at hb
    norm_num [bval] at hb
    exact absurd hb (by push_neg; linarith)
  | false =>
    rw [hd] at hb
    norm_num [bval] at hb
    have ha0 : (a:ℚ) = 0 := by linarith
    have hb0 : (b:ℚ) = 0 := by linarith
    have hc0 : (c:ℚ) = 0 := by linarith
    have hu0 : ((w.new_product_units : ℚ)) = 0 := by linarith
    have ha' : a = 0 := by exact_mod_cast ha0
    have hb' : b = 0 := by exact_mod_cast hb0
    have hc' : c = 0 := by exact_mod_cast hc0
    have hu' : w.new_product_units = 0 := by exact_mod_cast hu0
    refine ⟨by rw [habc, ha', hb', hc'], rfl, hu', ?_⟩
    unfold objective
    rw [habc, ha', hb', hc', hu', hd]
    norm_num [zeroBudgetParameters, defaultParameters, dotProd, bval]

theorem zeroBudget_zero_objective :
    objective zeroBudgetParameters (zeroAssignment 3) = 0 := by
  norm_num [objective, zeroBudgetParameters, defaultParameters, zeroAssignment,
    dotProd, bval, List.replicate]

theorem zeroBudget_optimal : IsOptimal zeroBudgetParameters (zeroAssignment 3) := by
  refine ⟨zeroBudget_feasible, fun w hw => ?_⟩
  rw [(zeroBudget_forced w hw).2.2.2, zeroBudget_zero_objective]

/-- C9: with the configured parameters except the budget capacity set to 0,
any run of a contract-satisfying solver reports the Optimal status code
(mapped to the string Optimal, not Infeasible), every production quantity 0,
approval false with zero new-product units, and total profit 0 — producing
nothing is feasible for this model. -/
theorem claim_C9_zero_budget (status : ℤ) (values : Assignment)
    (h : SolverContract zeroBudgetParameters status values) :
    status = 1 ∧ LpStatus status = Except.ok ("Optimal")
      ∧ values.production = [0, 0, 0]
      ∧ values.design_new_product = false
      ∧ values.new_product_units = 0
      ∧ objective zeroBudgetParameters values = 0 := by
  have hst : status = 1 :=
    h.1 ⟨zeroAssignment 3, zeroBudget_feasible⟩
      ⟨0, fun w hwf => le_of_eq (zeroBudget_forced w hwf).2.2.2⟩
  have hopt := h.2 hst
  obtain ⟨h1, h2, h3, h4⟩ := zeroBudget_forced values hopt.1
  exact ⟨hst, by rw [hst]; rfl, h1, h2, h3, h4⟩

theorem claim_C9_witness :
    SolverContract zeroBudgetParameters 1 (zeroAssignment 3)
      ∧ ((1:ℤ) = 1 ∧ LpStatus 1 = Except.ok ("Optimal")
          ∧ (zeroAssignment 3).production = [0, 0, 0]
          ∧ (zeroAssignment 3).design_new_product = false
          ∧ (zeroAssignment 3).new_product_units = 0
          ∧ objective zeroBudgetParameters (zeroAssignment 3) = 0) := by
  have hc : SolverContract zeroBudgetParameters 1 (zeroAssignment 3) :=
    ⟨fun _ _ => rfl, fun _ => zeroBudget_optimal⟩
  exact ⟨hc, claim_C9_zero_budget 1 (zeroAssignment 3) hc⟩

end Furniture
